import Mathlib

/-!
Verification development for the balsam job-orchestration core.

Strings are embedded as `List Char` so that structural induction is
available.  Python semantics are modelled explicitly where they matter:
`str.split`, `dict(...)` construction with later-key overwrite, string
repetition (`str * int`) and concatenation, and banker's rounding of
`round(S / 60)`.
-/

/-- Splits a character list at every occurrence of the separator, like
Python's `"a:b:c".split(":") == ["a", "b", "c"]`.  The empty string
splits to a single empty field. -/
def splitCh (sep : Char) : List Char → List (List Char)
  | [] => [[]]
  | c :: cs =>
    match splitCh sep cs with
    | [] => [[]]
    | g :: gs => if c = sep then [] :: g :: gs else (c :: g) :: gs

/-- Splits a character list at the FIRST occurrence of the separator
only, like Python's `s.split(sep, 1)`: returns `some (before, after)`
when the separator occurs, `none` otherwise. -/
def splitFirst (sep : Char) : List Char → Option (List Char × List Char)
  | [] => none
  | c :: cs =>
    if c = sep then some ([], cs)
    else (splitFirst sep cs).map (fun p => (c :: p.1, p.2))

/-- Parses a non-empty all-digit character list as a natural number,
like Python's `int` on the digit strings appearing in scheduler
wall-time fields; `none` models the `ValueError` raised on other
input. -/
def pyIntDigits (s : List Char) : Option Nat :=
  if s = [] then none
  else if s.all (fun c => c.isDigit) then
    some (s.foldl (fun acc c => acc * 10 + (c.toNat - 48)) 0)
  else none

/-- Python string repetition `s * n`. -/
def pyStrMul (s : List Char) (n : Nat) : List Char :=
  (List.replicate n s).flatten

/-- Python's `round(S / 60)` for a natural number of seconds `S`:
float division followed by banker's rounding (ties go to the even
quotient). -/
def pyRoundDiv60 (S : Nat) : Nat :=
  let q := S / 60
  let r := S % 60
  if r < 30 then q
  else if r > 30 then q + 1
  else if q % 2 = 0 then q else q + 1

/-- Embeds `parse_cobalt_time_minutes` from
src/balsam/platform/scheduler/pbs_sched.py lines 28-34: split on `:`
into exactly three integer tokens `H, M, S` and return
`H * 60 + M + round(S / 60)`; any `ValueError` (wrong arity or
non-integer token) yields 0. -/
def parse_cobalt_time_minutes (t : List Char) : Nat :=
  match splitCh ':' t with
  | [h, m, s] =>
    match pyIntDigits h, pyIntDigits m, pyIntDigits s with
    | some H, some M, some S => H * 60 + M + pyRoundDiv60 S
    | _, _, _ => 0
  | _ => 0

/-- Embeds the wall-time computation of `PBSScheduler._parse_status_output`
(src/balsam/platform/scheduler/pbs_sched.py lines 184-185):
`W = walltime.split(':')` followed by `W[0]*60 + W[1]`.  Both `W[0]`
and `W[1]` are Python strings, so `W[0]*60` is string repetition and
`+ W[1]` is string concatenation: the stored value is a string, not a
number of minutes. -/
def statusWallTimeMin (walltime : List Char) : List Char :=
  let W := splitCh ':' walltime
  pyStrMul (W.headD []) 60 ++ (W.drop 1).headD []

/-- A backfill window `(num_nodes, wall_time_min)` as advertised per
queue by a scheduler. -/
structure SchedulerBackfillWindow where
  num_nodes : Nat
  wall_time_min : Nat
deriving DecidableEq, Repr

/-- Embeds `PBSScheduler._parse_backfill_output`
(src/balsam/platform/scheduler/pbs_sched.py lines 194-198): the body
executes `return dict()` unconditionally, so every line after it is
unreachable and the result is always the empty queue-to-windows
mapping. -/
def parse_backfill_output (stdout : List Char) :
    List (List Char × List SchedulerBackfillWindow) :=
  let _ := stdout
  []

/-- Inserts a key into a Python dict represented as an ordered
association list: an existing key keeps its position and has its value
overwritten; a new key is appended. -/
def pyDictInsert {α β : Type} [DecidableEq α] (k : α) (v : β) :
    List (α × β) → List (α × β)
  | [] => [(k, v)]
  | (k0, v0) :: rest =>
    if k0 = k then (k0, v) :: rest else (k0, v0) :: pyDictInsert k v rest

/-- Builds a Python dict from a sequence of key/value pairs, inserting
left to right (later values for a repeated key overwrite earlier
ones, as `dict(...)` does). -/
def pyDict {α β : Type} [DecidableEq α] (l : List (α × β)) : List (α × β) :=
  l.foldl (fun d kv => pyDictInsert kv.1 kv.2 d) []

/-- Embeds the duplicate-id guard of the jobs router `bulk_update`
(src/balsam/server/routers/jobs.py lines 121-124): the patches are
keyed into a dict by job id, and if the input list is longer than the
dict (i.e. two patches shared an id) a `ValidationError` is raised
before any patch is applied; otherwise the keyed patches proceed to
the update. -/
def bulkUpdateGuard {β : Type} (patches : List (Nat × β)) :
    Except (List Char) (List (Nat × β)) :=
  let patch_dicts := pyDict patches
  if patches.length > patch_dicts.length then
    Except.error ("Duplicate Job ID keys provided".toList)
  else
    Except.ok patch_dicts

/-- Predicate for the jobs-router tags filter: does the entry contain a
colon (Python `":" in t`)? -/
def hasColon (t : List Char) : Bool :=
  t.any (fun c => c = ':')

/-- Embeds the dict comprehension of `JobQuery.apply_filters`
(src/balsam/server/routers/jobs.py lines 69 and 72): each entry of the
tags (or parameters) filter list that contains a colon is split at the
first colon into a key/value pair; entries without a colon are
dropped; the pairs are collected into a Python dict. -/
def tagsDict (ts : List (List Char)) : List (List Char × List Char) :=
  pyDict (ts.filterMap (fun t => splitFirst ':' t))

/-- Looks up a key in a job's tags (or parameters) mapping. -/
def lookupTag (jobTags : List (List Char × List Char)) (k : List Char) :
    Option (List Char) :=
  match jobTags with
  | [] => none
  | (k0, v0) :: rest => if k0 = k then some v0 else lookupTag rest k

/-- Embeds the containment filter `Job.tags.contains(tags_dict)`
(src/balsam/server/routers/jobs.py lines 70 and 73) applied to a
single job: the job passes the filter iff its tags mapping contains
every key/value pair of the dict built from the filter entries. -/
def matchesTagsFilter (jobTags : List (List Char × List Char))
    (ts : List (List Char)) : Bool :=
  (tagsDict ts).all (fun kv => lookupTag jobTags kv.1 = some kv.2)

/-- Job lifecycle states of the balsam state machine (spec section
4.3). -/
inductive JobState where
  | CREATED
  | STAGED_IN
  | READY
  | AWAITING_PARENTS
  | PREPROCESSED
  | RUNNING
  | POSTPROCESSED
  | RUN_ERROR
  | RUN_TIMEOUT
  | RUN_DONE
  | STAGED_OUT
  | JOB_FINISHED
  | FAILED
  | RESTART_READY
deriving DecidableEq, Repr

/-- Terminal job states: `JOB_FINISHED` and `FAILED`. -/
def JobState.terminal : JobState → Bool
  | .JOB_FINISHED => true
  | .FAILED => true
  | _ => false

/-- Modelled from the spec: the job state-machine transition relation
of section 4.3 (the server-side validator is not under src/).  Listed
chain transitions, plus any non-terminal state to `FAILED` or
`RESTART_READY`, plus `RESTART_READY` back to `RUNNING`. -/
def validTransition (a b : JobState) : Bool :=
  (match a, b with
   | .CREATED, .STAGED_IN => true
   | .STAGED_IN, .READY => true
   | .STAGED_IN, .AWAITING_PARENTS => true
   | .AWAITING_PARENTS, .READY => true
   | .READY, .PREPROCESSED => true
   | .PREPROCESSED, .RUNNING => true
   | .RUNNING, .POSTPROCESSED => true
   | .RUNNING, .RUN_ERROR => true
   | .RUNNING, .RUN_TIMEOUT => true
   | .RUNNING, .RUN_DONE => true
   | .POSTPROCESSED, .STAGED_OUT => true
   | .RUN_ERROR, .STAGED_OUT => true
   | .RUN_TIMEOUT, .STAGED_OUT => true
   | .RUN_DONE, .STAGED_OUT => true
   | .STAGED_OUT, .JOB_FINISHED => true
   | .RESTART_READY, .RUNNING => true
   | _, _ => false)
  || (!a.terminal && (b = .FAILED || b = .RESTART_READY))

/-- A LogEvent row: an immutable record of one state transition with
the authoritative per-transition timestamp and message (spec section
3). -/
structure LogEvent where
  job_ref : Nat
  timestamp : Nat
  from_state : JobState
  to_state : JobState
  message : List Char
deriving DecidableEq, Repr

/-- A Job row, restricted to the fields the claims observe. -/
structure JobRow where
  id : Nat
  state : JobState
  state_message : List Char
  state_timestamp : Option Nat
  last_update : Nat
  session_ref : Option Nat
  batch_job_ref : Option Nat
  parents : List Nat
  return_code : Option Int
deriving DecidableEq, Repr

/-- A patch for a Job write (bulk_update per id, or single update);
`none` fields are unset and preserved (spec section 4.2). -/
structure JobPatch where
  state : Option JobState := none
  state_message : Option (List Char) := none
  state_timestamp : Option Nat := none
  return_code : Option (Option Int) := none
deriving DecidableEq, Repr

/-- Modelled from the spec: job creation by the engine
(`crud.jobs.bulk_create` is not under src/).  Per spec sections 4.3
and 3: the creation event `CREATED -> STAGED_IN` is always emitted;
with no parents the engine immediately also emits
`STAGED_IN -> READY`; with parents the job starts awaiting them.  The
returned row reports state `STAGED_IN` for a parentless job (the
observed creation response of the test suite) and `AWAITING_PARENTS`
otherwise. -/
def createJob (id : Nat) (parents : List Nat) (t : Nat) :
    JobRow × List LogEvent :=
  let base : JobRow :=
    { id := id, state := JobState.STAGED_IN, state_message := [],
      state_timestamp := none, last_update := t, session_ref := none,
      batch_job_ref := none, parents := parents, return_code := none }
  let creation : LogEvent :=
    { job_ref := id, timestamp := t, from_state := JobState.CREATED,
      to_state := JobState.STAGED_IN, message := [] }
  if parents = [] then
    (base,
     [creation,
      { job_ref := id, timestamp := t, from_state := JobState.STAGED_IN,
        to_state := JobState.READY, message := [] }])
  else
    ({ base with state := JobState.AWAITING_PARENTS },
     [creation,
      { job_ref := id, timestamp := t, from_state := JobState.STAGED_IN,
        to_state := JobState.AWAITING_PARENTS, message := [] }])

/-- Modelled from the spec: the per-row semantics of a Job write
(`crud.jobs.bulk_update` is not under src/).  Per spec sections 4.2,
4.3 and 9: a patch that sets `state` is validated against the state
machine; on acceptance one LogEvent is appended carrying the
client-proposed `state_timestamp` (defaulting to now) and
`state_message`, while the Job row itself stores an empty
`state_message` and a null `state_timestamp`; the server sets
`last_update := now`.  A patch without `state` applies the remaining
fields with no event. -/
def updateJob (job : JobRow) (p : JobPatch) (now : Nat) :
    Except (List Char) (JobRow × List LogEvent) :=
  match p.state with
  | some s =>
    if validTransition job.state s then
      Except.ok
        ({ job with
            state := s, state_message := [], state_timestamp := none,
            last_update := now,
            return_code := p.return_code.getD job.return_code },
         [{ job_ref := job.id, timestamp := p.state_timestamp.getD now,
            from_state := job.state, to_state := s,
            message := (p.state_message.getD []) }])
    else
      Except.error ("InvalidTransition".toList)
  | none =>
    Except.ok
      ({ job with
          last_update := now,
          return_code := p.return_code.getD job.return_code }, [])

/-- BatchJob lifecycle states (spec section 3). -/
inductive BatchState where
  | pending_submission
  | queued
  | running
  | finished
  | failed
  | pending_deletion
deriving DecidableEq, Repr

/-- A BatchJob row, restricted to the fields the claims observe. -/
structure BatchJobRow where
  id : Nat
  state : BatchState
  num_nodes : Nat
  wall_time_min : Nat
  queue : List Char
  project : List Char
  job_mode : List Char
  scheduler_id : Option Nat
  revert : Bool
deriving DecidableEq, Repr

/-- A patch for a BatchJob write; `none` fields are unset and
preserved. -/
structure BatchJobPatch where
  state : Option BatchState := none
  num_nodes : Option Nat := none
  wall_time_min : Option Nat := none
  queue : Option (List Char) := none
  project : Option (List Char) := none
  job_mode : Option (List Char) := none
  scheduler_id : Option (Option Nat) := none
  revert : Option Bool := none
deriving DecidableEq, Repr

/-- Modelled from the spec: the states in which the scheduling fields
of a BatchJob are frozen.  The server-side BatchJob update code is not
under src/; per the observed contract of
TestBatchJobs.test_bulk_update_with_revert
(src/balsam/api/test_api.py lines 552-595) and spec sections 8 (S4)
and 9 (note 2), a `wall_time_min` write still succeeds while the
BatchJob is `queued` and is rejected once it is `running`, so the
freeze applies from `running` onward. -/
def frozenState : BatchState → Bool
  | .running => true
  | .finished => true
  | .failed => true
  | _ => false

/-- Does the patch propose a value different from the stored one for
any of the five freeze-protected fields `num_nodes`, `wall_time_min`,
`queue`, `project`, `job_mode`? -/
def changesFrozenField (job : BatchJobRow) (p : BatchJobPatch) : Bool :=
  (match p.num_nodes with | some v => v ≠ job.num_nodes | none => false)
  || (match p.wall_time_min with | some v => v ≠ job.wall_time_min | none => false)
  || (match p.queue with | some v => v ≠ job.queue | none => false)
  || (match p.project with | some v => v ≠ job.project | none => false)
  || (match p.job_mode with | some v => v ≠ job.job_mode | none => false)

/-- Applies every set field of a BatchJob patch to the row; the
transient `revert` flag is always cleared on write. -/
def applyBatchPatch (job : BatchJobRow) (p : BatchJobPatch) : BatchJobRow :=
  { job with
      state := p.state.getD job.state,
      num_nodes := p.num_nodes.getD job.num_nodes,
      wall_time_min := p.wall_time_min.getD job.wall_time_min,
      queue := p.queue.getD job.queue,
      project := p.project.getD job.project,
      job_mode := p.job_mode.getD job.job_mode,
      scheduler_id := p.scheduler_id.getD job.scheduler_id,
      revert := false }

/-- Modelled from the spec: one BatchJob update (the server-side
update code is not under src/).  Per spec section 4.5 and the observed
contract of TestBatchJobs.test_bulk_update_with_revert: when the row
is in a frozen state and the patch proposes a change to a frozen field
without setting `revert = true`, the write fails with an HTTP
409-class Conflict and nothing is persisted; otherwise the patch is
applied (the proposed values win, as the test's post-revert re-read of
`wall_time_min == 30` against a stored 45 shows) and the `revert` flag
is cleared. -/
def updateBatchJob (job : BatchJobRow) (p : BatchJobPatch) :
    Except (List Char) BatchJobRow :=
  if frozenState job.state && !(p.revert.getD false) && changesFrozenField job p
  then Except.error ("Conflict".toList)
  else Except.ok (applyBatchPatch job p)

/-- Human-readable lock name for a session-held job, derivable from
its current state (spec section 3; the tests observe "Preprocessing"
for a job acquired in `STAGED_IN`/`READY` and "Acquired by launcher"
for one acquired in `PREPROCESSED`). -/
def lockName : JobState → List Char
  | .STAGED_IN => "Preprocessing".toList
  | .READY => "Preprocessing".toList
  | .PREPROCESSED => "Acquired by launcher".toList
  | .RUNNING => "Acquired by launcher".toList
  | .RESTART_READY => "Acquired by launcher".toList
  | _ => "Staging out".toList

/-- Observable lock status of a Job: "Unlocked" when no session holds
it, otherwise the lock name of its current state (spec section 3). -/
def lock_status (j : JobRow) : List Char :=
  match j.session_ref with
  | none => "Unlocked".toList
  | some _ => lockName j.state

/-- Modelled from the spec: the per-job effect of deleting a Session
(the server-side session code is not under src/).  Per spec sections 3
and 4.4, destruction clears `session_ref` on every job the session had
acquired and changes nothing else. -/
def releaseJob (sid : Nat) (j : JobRow) : JobRow :=
  if j.session_ref = some sid then { j with session_ref := none } else j

/-- Modelled from the spec: deleting a Session releases all of its
acquired jobs (spec sections 3 and 4.4). -/
def deleteSession (sid : Nat) (jobs : List JobRow) : List JobRow :=
  jobs.map (releaseJob sid)

/-- Resource requirements of one candidate job in an acquire call
(spec section 4.4). -/
structure AcquireJob where
  id : Nat
  wall_time_min : Nat
  node_packing_count : Nat
  ranks_per_node : Nat
  threads_per_rank : Nat
  gpus_per_rank : Nat
deriving DecidableEq, Repr

/-- Remaining budget of one node of the launcher's pool during
bin-packed acquisition. -/
structure NodeState where
  running_jobs : Nat
  occupancy : Rat
  idle_cores : Rat
  idle_gpus : Rat
deriving DecidableEq, Repr

/-- The launcher's node-pool snapshot passed to acquire (spec section
4.4): scalar limits plus parallel per-node arrays. -/
structure NodeResources where
  max_jobs_per_node : Nat
  max_wall_time_min : Nat
  running_job_counts : List Nat
  node_occupancies : List Rat
  idle_cores : List Rat
  idle_gpus : List Rat
deriving Repr

/-- Zips the parallel per-node arrays of a `NodeResources` snapshot
into a list of node states. -/
def mkNodes : List Nat → List Rat → List Rat → List Rat → List NodeState
  | r :: rs, o :: os, c :: cs, g :: gs =>
    { running_jobs := r, occupancy := o, idle_cores := c, idle_gpus := g }
      :: mkNodes rs os cs gs
  | _, _, _, _ => []

/-- Modelled from the spec: the per-node fit test of the acquisition
engine (spec section 4.4; the server-side session code is not under
src/): a job fits a node when the node's running-job count is below
`max_jobs_per_node`, its occupancy plus `1 / node_packing_count` stays
at most 1, and its idle cores and gpus cover
`ranks_per_node * threads_per_rank` and
`ranks_per_node * gpus_per_rank`. -/
def fitsNode (maxJobs : Nat) (n : NodeState) (j : AcquireJob) : Bool :=
  decide (n.running_jobs < maxJobs)
  && decide (n.occupancy + 1 / (j.node_packing_count : Rat) ≤ 1)
  && decide (n.idle_cores ≥ ((j.ranks_per_node * j.threads_per_rank : Nat) : Rat))
  && decide (n.idle_gpus ≥ ((j.ranks_per_node * j.gpus_per_rank : Nat) : Rat))

/-- Decrements a node's budgets after a job is placed on it (spec
section 4.4). -/
def placeOnNode (n : NodeState) (j : AcquireJob) : NodeState :=
  { running_jobs := n.running_jobs + 1,
    occupancy := n.occupancy + 1 / (j.node_packing_count : Rat),
    idle_cores := n.idle_cores - ((j.ranks_per_node * j.threads_per_rank : Nat) : Rat),
    idle_gpus := n.idle_gpus - ((j.ranks_per_node * j.gpus_per_rank : Nat) : Rat) }

/-- Tries to place a job on the first node of the pool it fits,
returning the updated pool, or `none` when no node fits. -/
def tryPlace (maxJobs : Nat) (j : AcquireJob) :
    List NodeState → Option (List NodeState)
  | [] => none
  | n :: ns =>
    if fitsNode maxJobs n j then some (placeOnNode n j :: ns)
    else (tryPlace maxJobs j ns).map (fun ns2 => n :: ns2)

/-- Modelled from the spec: the bin-packed selection loop of
`acquire` (spec section 4.4; the server-side session code is not under
src/).  Candidates are visited in order; a job whose `wall_time_min`
exceeds `max_wall_time_min` is skipped entirely (hard reject); an
accepted job consumes the chosen node's budgets; acquisition stops
after `remaining` placements. -/
def acquireLoop (maxJobs maxWall : Nat) :
    Nat → List NodeState → List AcquireJob → List AcquireJob
  | _, _, [] => []
  | 0, _, _ :: _ => []
  | Nat.succ rem, nodes, j :: js =>
    if j.wall_time_min > maxWall then
      acquireLoop maxJobs maxWall (Nat.succ rem) nodes js
    else
      match tryPlace maxJobs j nodes with
      | some nodes2 => j :: acquireLoop maxJobs maxWall rem nodes2 js
      | none => acquireLoop maxJobs maxWall (Nat.succ rem) nodes js

/-- Inserts a job into a list sorted by descending `wall_time_min`,
keeping earlier elements first on ties. -/
def insertByWallDesc (j : AcquireJob) : List AcquireJob → List AcquireJob
  | [] => [j]
  | x :: xs =>
    if x.wall_time_min ≥ j.wall_time_min then x :: insertByWallDesc j xs
    else j :: x :: xs

/-- Sorts acquire candidates by the ordering spec `-wall_time_min`
(descending wall time; spec section 4.4). -/
def sortByWallDesc : List AcquireJob → List AcquireJob
  | [] => []
  | j :: js => insertByWallDesc j (sortByWallDesc js)

/-- Modelled from the spec: `acquire` with a `node_resources`
snapshot and the ordering spec `-wall_time_min` (spec section 4.4):
candidates are ordered by descending wall time and fed to the
bin-packed selection loop, capped at `max_num_acquire`. -/
def acquireWithNodeResources (res : NodeResources) (maxAcquire : Nat)
    (candidates : List AcquireJob) : List AcquireJob :=
  acquireLoop res.max_jobs_per_node res.max_wall_time_min maxAcquire
    (mkNodes res.running_job_counts res.node_occupancies res.idle_cores
      res.idle_gpus)
    (sortByWallDesc candidates)

/-- Folds the key sequence of a dict build: an already-present key is
skipped, a new key is appended. -/
def keyFold {α : Type} [DecidableEq α] : List α → List α → List α
  | ks, [] => ks
  | ks, k :: rest => keyFold (if k ∈ ks then ks else ks ++ [k]) rest

theorem pyDictInsert_keys_of_mem {α β : Type} [DecidableEq α] (k : α) (v : β)
    (d : List (α × β)) (h : k ∈ d.map Prod.fst) :
    (pyDictInsert k v d).map Prod.fst = d.map Prod.fst := by
  induction d with
  | nil => simp at h
  | cons kv rest ih =>
    obtain ⟨k0, v0⟩ := kv
    by_cases hk : k0 = k
    · simp [pyDictInsert, hk]
    · simp only [List.map_cons, List.mem_cons] at h
      rcases h with h | h
    
      · exact absurd h.symm hk
      · simp [pyDictInsert, hk, ih h]

theorem pyDictInsert_keys_of_not_mem {α β : Type} [DecidableEq α] (k : α)
    (v : β) (d : List (α × β)) (h : k ∉ d.map Prod.fst) :
    (pyDictInsert k v d).map Prod.fst = d.map Prod.fst ++ [k] := by
  induction d with
  | nil => simp [pyDictInsert]
  | cons kv rest ih =>
    obtain ⟨k0, v0⟩ := kv
    have hk : ¬ k0 = k := by
      intro e
      exact h (by simp [e])
    have hr : k ∉ rest.map Prod.fst := by
      intro hm
      exact h (by simp [hm])
    simp [pyDictInsert, hk, ih hr]

theorem pyDict_foldl_keys {α β : Type} [DecidableEq α] (l : List (α × β)) :
    ∀ acc : List (α × β),
      ((l.foldl (fun d kv => pyDictInsert kv.1 kv.2 d) acc).map Prod.fst) =
        keyFold (acc.map Prod.fst) (l.map Prod.fst) := by
  induction l with
  | nil => intro acc; rfl
  | cons kv rest ih =>
    intro acc
    obtain ⟨k, v⟩ := kv
    simp only [List.foldl_cons, List.map_cons]
    rw [ih]
    by_cases h : k ∈ acc.map Prod.fst
    · rw [pyDictInsert_keys_of_mem k v acc h]
      simp [keyFold, h]
    · rw [pyDictInsert_keys_of_not_mem k v acc h]
      simp [keyFold, h]

theorem keyFold_length_le {α : Type} [DecidableEq α] (l : List α) :
    ∀ ks : List α, (keyFold ks l).length ≤ ks.length + l.length := by
  induction l with
  | nil => intro ks; simp [keyFold]
  | cons k rest ih =>
    intro ks
    by_cases h : k ∈ ks
    · simp only [keyFold, if_pos h]
      have := ih ks
      simp only [List.length_cons]
      omega
    · simp only [keyFold, if_neg h]
      have := ih (ks ++ [k])
      simp only [List.length_append, List.length_cons, List.length_nil,
        List.length_singleton] at this ⊢
      omega

theorem keyFold_length_lt_of_mem {α : Type} [DecidableEq α] (l : List α) :
    ∀ ks : List α, (∃ k ∈ l, k ∈ ks) →
      (keyFold ks l).length < ks.length + l.length := by
  induction l with
  | nil => intro ks h; simp at h
  | cons k rest ih =>
    intro ks h
    obtain ⟨k0, hk0l, hk0ks⟩ := h
    by_cases h1 : k ∈ ks
    · simp only [keyFold, if_pos h1]
      have := keyFold_length_le rest ks
      simp only [List.length_cons]
      omega
    · simp only [keyFold, if_neg h1]
      have hk0rest : k0 ∈ rest := by
        rcases List.mem_cons.mp hk0l with e | hr
        · exact absurd (e ▸ hk0ks) h1
        · exact hr
      have := ih (ks ++ [k]) ⟨k0, hk0rest, by simp [hk0ks]⟩
      simp only [List.length_append, List.length_cons, List.length_nil,
        List.length_singleton] at this ⊢
      omega

theorem keyFold_length_lt_of_dup {α : Type} [DecidableEq α] (l : List α) :
    ∀ ks : List α, ¬ l.Nodup →
      (keyFold ks l).length < ks.length + l.length := by
  induction l with
  | nil => intro ks h; exact absurd List.nodup_nil h
  | cons k rest ih =>
    intro ks h
    by_cases h1 : k ∈ ks
    · simp only [keyFold, if_pos h1]
      have := keyFold_length_le rest ks
      simp only [List.length_cons]
      omega
    · simp only [keyFold, if_neg h1]
      by_cases h2 : rest.Nodup
      · have hkrest : k ∈ rest := by
          by_contra hk
          exact h (List.nodup_cons.mpr ⟨hk, h2⟩)
        have := keyFold_length_lt_of_mem rest (ks ++ [k]) ⟨k, hkrest, by simp⟩
        simp only [List.length_append, List.length_cons, List.length_nil,
          List.length_singleton] at this ⊢
        omega
      · have := ih (ks ++ [k]) h2
        simp only [List.length_append, List.length_cons, List.length_nil,
          List.length_singleton] at this ⊢
        omega

theorem keyFold_length_eq {α : Type} [DecidableEq α] (l : List α) :
    ∀ ks : List α, l.Nodup → (∀ k ∈ l, k ∉ ks) →
      (keyFold ks l).length = ks.length + l.length := by
  induction l with
  | nil => intro ks _ _; simp [keyFold]
  | cons k rest ih =>
    intro ks hnd hdisj
    have h1 : k ∉ ks := hdisj k (by simp)
    simp only [keyFold, if_neg h1]
    have hnd2 := List.nodup_cons.mp hnd
    have := ih (ks ++ [k]) hnd2.2 (by
      intro k2 hk2
      simp only [List.mem_append, List.mem_singleton]
      rintro (hin | heq)
      · exact hdisj k2 (by simp [hk2]) hin
      · exact hnd2.1 (heq ▸ hk2))
    simp only [List.length_append, List.length_cons, List.length_nil,
      List.length_singleton] at this ⊢
    omega

theorem pyDict_length_of_nodup {α β : Type} [DecidableEq α]
    (l : List (α × β)) (h : (l.map Prod.fst).Nodup) :
    (pyDict l).length = l.length := by
  have hk : (pyDict l).map Prod.fst = keyFold [] (l.map Prod.fst) :=
    pyDict_foldl_keys l []
  have hlen : ((pyDict l).map Prod.fst).length =
      (keyFold [] (l.map Prod.fst)).length := by rw [hk]
  simp only [List.length_map] at hlen
  rw [hlen, keyFold_length_eq (l.map Prod.fst) [] h (by simp)]
  simp

theorem pyDict_length_of_dup {α β : Type} [DecidableEq α]
    (l : List (α × β)) (h : ¬ (l.map Prod.fst).Nodup) :
    (pyDict l).length < l.length := by
  have hk : (pyDict l).map Prod.fst = keyFold [] (l.map Prod.fst) :=
    pyDict_foldl_keys l []
  have hlen : ((pyDict l).map Prod.fst).length =
      (keyFold [] (l.map Prod.fst)).length := by rw [hk]
  simp only [List.length_map] at hlen
  have := keyFold_length_lt_of_dup (l.map Prod.fst) [] h
  simp only [List.length_nil, List.length_map] at this
  omega

theorem splitFirst_isSome_eq (sep : Char) (t : List Char) :
    (splitFirst sep t).isSome = t.any (fun c => c = sep) := by
  induction t with
  | nil => rfl
  | cons c cs ih =>
    by_cases h : c = sep
    · simp [splitFirst, h]
    · simp [splitFirst, h, ih]

theorem splitFirst_eq_none_of_no_colon (t : List Char)
    (h : hasColon t = false) : splitFirst ':' t = none := by
  have hs := splitFirst_isSome_eq ':' t
  rw [show (t.any fun c => c = ':') = hasColon t from rfl, h] at hs
  cases hsp : splitFirst ':' t with
  | none => rfl
  | some p => rw [hsp] at hs; simp at hs

theorem filterMap_splitFirst_filter (ts : List (List Char)) :
    ts.filterMap (fun t => splitFirst ':' t) =
      (ts.filter hasColon).filterMap (fun t => splitFirst ':' t) := by
  induction ts with
  | nil => rfl
  | cons t rest ih =>
    cases h : hasColon t with
    | false =>
      have hnone := splitFirst_eq_none_of_no_colon t h
      simp [List.filter_cons, h, List.filterMap_cons, hnone, ih]
    | true =>
      simp [List.filter_cons, h, List.filterMap_cons, ih]

theorem tagsDict_filter_colonless (ts : List (List Char)) :
    tagsDict ts = tagsDict (ts.filter hasColon) := by
  unfold tagsDict
  rw [filterMap_splitFirst_filter]

/-- A concrete READY job used to instantiate the Job-update theorem. -/
def w1job : JobRow :=
  { id := 5, state := JobState.READY, state_message := [],
    state_timestamp := none, last_update := 0, session_ref := none,
    batch_job_ref := none, parents := [], return_code := none }

/-- A concrete patch proposing a state transition together with a
state message and a state timestamp. -/
def w1patch : JobPatch :=
  { state := some JobState.PREPROCESSED,
    state_message := some ("Skipped Preprocess: nothing to do".toList),
    state_timestamp := some 9 }

/-- C1: a Job write whose patch sets `state` together with
`state_message` and `state_timestamp` persists the transition and
emits one LogEvent carrying the proposed message and timestamp, while
the re-read Job row itself holds an empty `state_message` and a null
`state_timestamp`. -/
theorem job_update_persists_trail_in_event (job : JobRow) (p : JobPatch)
    (now : Nat) (s : JobState) (msg : List Char) (ts : Nat)
    (hs : p.state = some s) (hm : p.state_message = some msg)
    (ht : p.state_timestamp = some ts)
    (hv : validTransition job.state s = true) :
    updateJob job p now =
      Except.ok
        ({ job with
            state := s, state_message := [], state_timestamp := none,
            last_update := now,
            return_code := p.return_code.getD job.return_code },
         [{ job_ref := job.id, timestamp := ts, from_state := job.state,
            to_state := s, message := msg }]) := by
  simp [updateJob, hs, hm, ht, hv]

/-- Witness for C1: the theorem applied to a concrete READY job and a
concrete PREPROCESSED patch. -/
theorem job_update_persists_trail_in_event_witness :
    updateJob w1job w1patch 7 =
      Except.ok
        ({ w1job with
            state := JobState.PREPROCESSED, state_message := [],
            state_timestamp := none, last_update := 7,
            return_code := w1patch.return_code.getD w1job.return_code },
         [{ job_ref := w1job.id, timestamp := 9, from_state := w1job.state,
            to_state := JobState.PREPROCESSED,
            message := "Skipped Preprocess: nothing to do".toList }]) :=
  job_update_persists_trail_in_event w1job w1patch 7 JobState.PREPROCESSED
    ("Skipped Preprocess: nothing to do".toList) 9 rfl rfl rfl (by decide)

/-- A concrete queued BatchJob whose stored `wall_time_min` is 30. -/
def c2job : BatchJobRow :=
  { id := 1, state := BatchState.queued, num_nodes := 128,
    wall_time_min := 30, queue := "default".toList,
    project := "datascience".toList, job_mode := "mpi".toList,
    scheduler_id := some 123, revert := false }

/-- A concrete patch proposing `wall_time_min := 45` without revert. -/
def c2patch : BatchJobPatch := { wall_time_min := some 45 }

/-- Counterexample to C2 as stated: a BatchJob in state `queued`
accepts a patch that changes `wall_time_min` from 30 to 45 without
`revert`, instead of failing with 409 Conflict (matching
TestBatchJobs.test_bulk_update_with_revert, where the wall-time write
after queueing succeeds and persists). -/
theorem batchjob_queued_patch_persists :
    c2job.state = BatchState.queued ∧ c2job.wall_time_min = 30 ∧
    c2patch.wall_time_min = some 45 ∧ c2patch.revert = none ∧
    updateBatchJob c2job c2patch = Except.ok (applyBatchPatch c2job c2patch) ∧
    (applyBatchPatch c2job c2patch).wall_time_min = 45 :=
  ⟨rfl, rfl, rfl, rfl, rfl, rfl⟩

/-- C2 (amended): for a BatchJob in a frozen state (`running`,
`finished` or `failed`), a patch that proposes a different value on a
frozen field without `revert = true` fails with a 409-class Conflict,
persisting nothing. -/
theorem batchjob_frozen_patch_conflict (job : BatchJobRow)
    (p : BatchJobPatch) (hf : frozenState job.state = true)
    (hr : p.revert.getD false = false)
    (hc : changesFrozenField job p = true) :
    updateBatchJob job p = Except.error ("Conflict".toList) := by
  simp [updateBatchJob, hf, hr, hc]

/-- A concrete running BatchJob whose stored `wall_time_min` is 45. -/
def c3job : BatchJobRow :=
  { id := 2, state := BatchState.running, num_nodes := 128,
    wall_time_min := 45, queue := "default".toList,
    project := "datascience".toList, job_mode := "mpi".toList,
    scheduler_id := some 123, revert := false }

/-- A concrete patch proposing `wall_time_min := 30` with
`revert = true`. -/
def c3patch : BatchJobPatch :=
  { wall_time_min := some 30, revert := some true }

/-- Witness for C2 (amended): the running BatchJob with stored
wall time 45 rejects a revert-less patch to 30 with Conflict. -/
theorem batchjob_frozen_patch_conflict_witness :
    updateBatchJob c3job { wall_time_min := some 30 } =
      Except.error ("Conflict".toList) :=
  batchjob_frozen_patch_conflict c3job { wall_time_min := some 30 }
    (by decide) rfl (by decide)

/-- Counterexample to C3 as stated: a `revert = true` patch on a
frozen BatchJob does NOT write the field back to the value the server
had stored before the patch (45); the client-proposed value 30 is
applied and read back (matching the final assertion of
TestBatchJobs.test_bulk_update_with_revert). -/
theorem batchjob_revert_applies_proposed :
    c3job.state = BatchState.running ∧ c3job.wall_time_min = 45 ∧
    c3patch.wall_time_min = some 30 ∧ c3patch.revert = some true ∧
    updateBatchJob c3job c3patch = Except.ok (applyBatchPatch c3job c3patch) ∧
    (applyBatchPatch c3job c3patch).wall_time_min = 30 ∧
    (applyBatchPatch c3job c3patch).wall_time_min ≠ c3job.wall_time_min :=
  ⟨rfl, rfl, rfl, rfl, rfl, rfl, by decide⟩

/-- C3 (amended): for a BatchJob in a frozen state, a patch that sets
`revert = true` succeeds, applies the client-proposed values for the
patched fields, and clears the `revert` flag. -/
theorem batchjob_revert_patch_applies (job : BatchJobRow)
    (p : BatchJobPatch) (h : p.revert = some true) :
    updateBatchJob job p = Except.ok (applyBatchPatch job p) ∧
    (applyBatchPatch job p).revert = false ∧
    (∀ v, p.wall_time_min = some v →
      (applyBatchPatch job p).wall_time_min = v) := by
  have hr : p.revert.getD false = true := by rw [h]; rfl
  refine ⟨?_, rfl, ?_⟩
  · simp [updateBatchJob, hr]
  · intro v hv
    simp [applyBatchPatch, hv]

/-- Witness for C3 (amended): the revert patch on the concrete
running BatchJob goes through. -/
theorem batchjob_revert_patch_applies_witness :
    updateBatchJob c3job c3patch = Except.ok (applyBatchPatch c3job c3patch) :=
  (batchjob_revert_patch_applies c3job c3patch rfl).1

/-- C4: a Job created with an empty parents set reports state
`STAGED_IN` and its event history is exactly the creation event into
`STAGED_IN` followed by `STAGED_IN -> READY`, each emitted exactly
once. -/
theorem create_job_no_parents_history (id t : Nat) :
    (createJob id [] t).1.state = JobState.STAGED_IN ∧
    ((createJob id [] t).2.map (fun e => (e.from_state, e.to_state)) =
      [(JobState.CREATED, JobState.STAGED_IN),
       (JobState.STAGED_IN, JobState.READY)]) ∧
    (createJob id [] t).2.length = 2 ∧
    ((createJob id [] t).2.countP
      (fun e => e.to_state = JobState.STAGED_IN)) = 1 ∧
    ((createJob id [] t).2.countP
      (fun e => e.to_state = JobState.READY)) = 1 :=
  ⟨rfl, rfl, rfl, rfl, rfl⟩

/-- The four candidate jobs of scenario S3
(TestSessions.test_acquire_with_node_resources): wall times 31, 40,
32, 33; `node_packing_count = 4` throughout; `threads_per_rank = 4`
for all but the 40-minute job, which has 1; the remaining resource
hints keep their creation defaults (`ranks_per_node = 1`,
`gpus_per_rank = 0`). -/
def s3jobs : List AcquireJob :=
  [ { id := 0, wall_time_min := 31, node_packing_count := 4,
      ranks_per_node := 1, threads_per_rank := 4, gpus_per_rank := 0 },
    { id := 1, wall_time_min := 40, node_packing_count := 4,
      ranks_per_node := 1, threads_per_rank := 1, gpus_per_rank := 0 },
    { id := 2, wall_time_min := 32, node_packing_count := 4,
      ranks_per_node := 1, threads_per_rank := 4, gpus_per_rank := 0 },
    { id := 3, wall_time_min := 33, node_packing_count := 4,
      ranks_per_node := 1, threads_per_rank := 4, gpus_per_rank := 0 } ]

/-- The node-pool snapshot of scenario S3. -/
def s3resources : NodeResources :=
  { max_jobs_per_node := 8, max_wall_time_min := 35,
    running_job_counts := [2, 0],
    node_occupancies := [(6 : Rat)/10, 0],
    idle_cores := [3, 8],
    idle_gpus := [0, 0] }

/-- C5: on the S3 inputs, acquire visits the candidates in descending
wall-time order 40, 33, 32, 31 and returns exactly the jobs with wall
times 33 then 32 (candidate ids 3 then 2): the 40-minute job exceeds
`max_wall_time_min = 35` and is skipped entirely, and after the two
placements consume the second node's cores the 31-minute job no
longer fits anywhere. -/
theorem acquire_s3_selects_33_then_32 :
    ((sortByWallDesc s3jobs).map AcquireJob.wall_time_min =
      [40, 33, 32, 31]) ∧
    ((acquireWithNodeResources s3resources 16 s3jobs).map
      AcquireJob.wall_time_min = [33, 32]) ∧
    ((acquireWithNodeResources s3resources 16 s3jobs).map
      AcquireJob.id = [3, 2]) := by
  refine ⟨by rfl, ?_, ?_⟩ <;>
    norm_num [acquireWithNodeResources, s3resources, s3jobs, sortByWallDesc,
      insertByWallDesc, acquireLoop, tryPlace, fitsNode, placeOnNode, mkNodes]

/-- C6: deleting a Session clears `session_ref` on every job it had
acquired, making the observable `lock_status` Unlocked, and leaves
every job's `state` unchanged. -/
theorem session_delete_unlocks (sid : Nat) (j : JobRow)
    (h : j.session_ref = some sid) :
    (releaseJob sid j).session_ref = none ∧
    lock_status (releaseJob sid j) = "Unlocked".toList ∧
    (releaseJob sid j).state = j.state ∧
    (∀ jobs : List JobRow, deleteSession sid jobs = jobs.map (releaseJob sid)) ∧
    (∀ j2 : JobRow, (releaseJob sid j2).state = j2.state) := by
  refine ⟨?_, ?_, ?_, fun jobs => rfl, fun j2 => ?_⟩
  · simp [releaseJob, h]
  · simp [releaseJob, h, lock_status]
  · simp [releaseJob, h]
  · unfold releaseJob
    split <;> rfl

/-- A concrete job held by session 2 in state STAGED_IN. -/
def w6job : JobRow :=
  { id := 9, state := JobState.STAGED_IN, state_message := [],
    state_timestamp := none, last_update := 0, session_ref := some 2,
    batch_job_ref := none, parents := [], return_code := none }

/-- Witness for C6: releasing the concrete held job unlocks it and
keeps its state. -/
theorem session_delete_unlocks_witness :
    (releaseJob 2 w6job).session_ref = none ∧
    lock_status (releaseJob 2 w6job) = "Unlocked".toList ∧
    (releaseJob 2 w6job).state = w6job.state :=
  ⟨(session_delete_unlocks 2 w6job rfl).1,
   (session_delete_unlocks 2 w6job rfl).2.1,
   (session_delete_unlocks 2 w6job rfl).2.2.1⟩

/-- C7: a bulk_update input in which two patches carry the same job id
fails with the duplicate-id ValidationError before any patch is
applied, and an input with pairwise-distinct ids proceeds to the
update with the keyed patches. -/
theorem bulk_update_duplicate_guard {β : Type} (patches : List (Nat × β)) :
    ((patches.map Prod.fst).Nodup →
      bulkUpdateGuard patches = Except.ok (pyDict patches)) ∧
    (¬ (patches.map Prod.fst).Nodup →
      bulkUpdateGuard patches =
        Except.error ("Duplicate Job ID keys provided".toList)) := by
  constructor
  · intro h
    have heq := pyDict_length_of_nodup patches h
    unfold bulkUpdateGuard
    rw [if_neg (by omega)]
  · intro h
    have hlt := pyDict_length_of_dup patches h
    unfold bulkUpdateGuard
    rw [if_pos (by omega)]

/-- Witness for C7: a two-patch input sharing id 1 hits the
ValidationError. -/
theorem bulk_update_duplicate_guard_witness :
    bulkUpdateGuard [(1, 10), (1, 20)] =
      Except.error ("Duplicate Job ID keys provided".toList) :=
  (bulk_update_duplicate_guard [(1, 10), (1, 20)]).2 (by decide)

/-- C8 (code bug): on the well-formed walltime `01:30:00` the status
parser stores the Python string `"01" * 60 + "30"` (a 122-character
string), not the numeric 60*1 + 30 = 90 minutes that
`parse_cobalt_time_minutes` computes and the spec requires. -/
theorem pbs_walltime_stores_string_not_minutes :
    statusWallTimeMin ("01:30:00".toList) =
      pyStrMul ("01".toList) 60 ++ "30".toList ∧
    (statusWallTimeMin ("01:30:00".toList)).length = 122 ∧
    parse_cobalt_time_minutes ("01:30:00".toList) = 90 ∧
    60 * 1 + 30 = 90 := by
  refine ⟨rfl, ?_, ?_, rfl⟩ <;> decide

/-- C9: in the jobs list query, each tags (or parameters) filter entry
without a colon is silently dropped and imposes no constraint; a
filter whose entries all lack colons filters nothing; an entry with a
colon is split at the first colon into a key/value pair that the
job's mapping must contain. -/
theorem tags_filter_colonless_dropped
    (jobTags : List (List Char × List Char)) (ts : List (List Char)) :
    matchesTagsFilter jobTags ts =
      matchesTagsFilter jobTags (ts.filter hasColon) ∧
    ((∀ t ∈ ts, hasColon t = false) → matchesTagsFilter jobTags ts = true) ∧
    (∀ t k v, splitFirst ':' t = some (k, v) →
      matchesTagsFilter jobTags [t] =
        decide (lookupTag jobTags k = some v)) := by
  refine ⟨?_, ?_, ?_⟩
  · unfold matchesTagsFilter
    rw [tagsDict_filter_colonless]
  · intro h
    have hnil : ts.filter hasColon = [] := by
      rw [List.filter_eq_nil_iff]
      intro t ht
      simp [h t ht]
    unfold matchesTagsFilter
    rw [tagsDict_filter_colonless, hnil]
    rfl
  · intro t k v hsp
    simp [matchesTagsFilter, tagsDict, List.filterMap, hsp, pyDict,
      pyDictInsert]

/-- Witness for C9: a one-entry tags filter without a colon matches a
job with no tags at all. -/
theorem tags_filter_colonless_dropped_witness :
    matchesTagsFilter [] ["foo".toList] = true :=
  (tags_filter_colonless_dropped [] ["foo".toList]).2.1 (by decide)

/-- C10: the PBS adapter's backfill parser returns the empty mapping
for every input string: no backfill window is ever reported. -/
theorem parse_backfill_always_empty (stdout : List Char) :
    parse_backfill_output stdout = [] := rfl
